import Mathlib

/-!
Shallow embedding of the barista repository's color-scheme loader
(`src/colors/colors.go`) and of its Apixu weather provider
(`modules/weather/apixu`).  Go strings are modelled as `List Char`
(colors) or `String` (apixu); Go maps as functions into `Option`;
Go panics as `none` in an `Option`-valued step; floating point as `ℚ`.
-/

namespace Colors

/-- An RGB color, standing in for Go's `color.Color` as produced by the
external `go-colorful` library: `colorful.Hex` only ever yields an
opaque RGB value. -/
structure Color where
  r : Nat
  g : Nat
  b : Nat
deriving DecidableEq

/-- Value of a hexadecimal digit character, `none` when the character is
not a hex digit. -/
def hexDigitVal (c : Char) : Option Nat :=
  if '0' ≤ c ∧ c ≤ '9' then some (c.toNat - 48)
  else if 'a' ≤ c ∧ c ≤ 'f' then some (c.toNat - 87)
  else if 'A' ≤ c ∧ c ≤ 'F' then some (c.toNat - 55)
  else none

/-- Embedding of `colors.Hex` (colors.go lines 29–35).  The underlying
external library `colorful.Hex` accepts `#rgb` and `#rrggbb` hex strings
and fails on everything else; `Hex` returns `nil` (here `none`) on
failure and the parsed color otherwise. -/
def Hex (s : List Char) : Option Color :=
  match s with
  | ['#', r1, r2, g1, g2, b1, b2] =>
    match hexDigitVal r1, hexDigitVal r2, hexDigitVal g1, hexDigitVal g2,
        hexDigitVal b1, hexDigitVal b2 with
    | some a, some b, some c, some d, some e, some f =>
      some ⟨a * 16 + b, c * 16 + d, e * 16 + f⟩
    | _, _, _, _, _, _ => none
  | ['#', r, g, b] =>
    match hexDigitVal r, hexDigitVal g, hexDigitVal b with
    | some a, some c, some e => some ⟨a * 17, c * 17, e * 17⟩
    | _, _, _ => none
  | _ => none

/-- The color scheme: Go's `map[string]color.Color`, as a function into
`Option Color` (colors.go line 48). -/
def Scheme : Type := List Char → Option Color

/-- Insertion `scheme[name] = color` into the scheme map. -/
def updateScheme (σ : Scheme) (name : List Char) (c : Color) : Scheme :=
  fun m => if m = name then some c else σ m

/-- Embedding of `splitAtLastEqual` (colors.go lines 50–56): split the
string at the last occurrence of the equals sign, returning
(prefix, suffix, ok); ok is false when there is no equals sign. -/
def splitAtLastEqual (s : List Char) : List Char × List Char × Bool :=
  match s with
  | [] => ([], [], false)
  | c :: rest =>
    match splitAtLastEqual rest with
    | (pre, post, true) => (c :: pre, post, true)
    | (_, _, false) =>
      if c = '=' then ([], rest, true) else ([], [], false)

/-- One iteration of the `LoadFromArgs` loop body (colors.go
lines 60–66): split the argument at the last equals sign and insert
only when `Hex` succeeds. -/
def loadArgStep (σ : Scheme) (arg : List Char) : Scheme :=
  match splitAtLastEqual arg with
  | (name, value, true) =>
    match Hex value with
    | some c => updateScheme σ name c
    | none => σ
  | (_, _, false) => σ

/-- Embedding of `colors.LoadFromArgs` (colors.go lines 59–67), with the
global `scheme` map threaded explicitly. -/
def LoadFromArgs (args : List (List Char)) (σ : Scheme) : Scheme :=
  match args with
  | [] => σ
  | arg :: rest => LoadFromArgs rest (loadArgStep σ arg)

/-- Embedding of `colors.LoadFromMap` (colors.go lines 70–76); the Go
map being ranged over is modelled as a list of key/value pairs. -/
def LoadFromMap (entries : List (List Char × List Char)) (σ : Scheme) : Scheme :=
  match entries with
  | [] => σ
  | (name, value) :: rest =>
    match Hex value with
    | some c => LoadFromMap rest (updateScheme σ name c)
    | none => LoadFromMap rest σ

/-- ASCII whitespace recognizer backing `strings.TrimSpace`; the inputs
relevant here are ASCII, where Go's `unicode.IsSpace` agrees. -/
def isSpaceChar (c : Char) : Bool :=
  c = ' ' || c = Char.ofNat 9 || c = Char.ofNat 10 || c = Char.ofNat 13 || c = Char.ofNat 11 || c = Char.ofNat 12

/-- Embedding of Go's `strings.TrimSpace`: drop whitespace from both
ends. -/
def trimSpace (s : List Char) : List Char :=
  ((s.dropWhile isSpaceChar).reverse.dropWhile isSpaceChar).reverse

/-- The string `color_` whose presence as a line head selects config
lines (colors.go line 92). -/
def colorKeyHead : List Char := ['c', 'o', 'l', 'o', 'r', '_']

/-- The quote-stripping step of `LoadFromConfig` (colors.go
lines 101–105): Go evaluates `value[0]` and `value[len(value)-1]`, which
panics (modelled as `none`) on the empty string; a surrounding pair of
double or single quotes is removed via `value[1 : len(value)-1]`, which
panics when `len(value) = 1`. -/
def unquote (value : List Char) : Option (List Char) :=
  match value with
  | [] => none
  | c :: rest =>
    let lastC := rest.getLastD c
    if (c = Char.ofNat 34 ∧ lastC = Char.ofNat 34) ∨
        (c = Char.ofNat 39 ∧ lastC = Char.ofNat 39) then
      match rest with
      | [] => none
      | _ :: _ => some rest.dropLast
    else some value

/-- One iteration of the `LoadFromConfig` scanner loop (colors.go
lines 90–109) on a single line; `none` models a Go panic. -/
def loadConfigLine (σ : Scheme) (line : List Char) : Option Scheme :=
  let line := trimSpace line
  if colorKeyHead.isPrefixOf line then
    match splitAtLastEqual line with
    | (name, value, true) =>
      let name := trimSpace (name.drop 6)
      let value := trimSpace value
      match unquote value with
      | none => none
      | some value =>
        match Hex value with
        | some c => some (updateScheme σ name c)
        | none => some σ
    | (_, _, false) => some σ
  else some σ

/-- The (name, value) pair a config line supplies to the scheme: the
name and value `LoadFromConfig` computes at colors.go lines 95–105
when the line is selected, splits at an equals sign and unquotes
without panicking; `none` otherwise. -/
def configPair (l : List Char) : Option (List Char × List Char) :=
  let line := trimSpace l
  if colorKeyHead.isPrefixOf line then
    match splitAtLastEqual line with
    | (name, value, true) =>
      match unquote (trimSpace value) with
      | none => none
      | some v => some (trimSpace (name.drop 6), v)
    | (_, _, false) => none
  else none

/-- Embedding of the line-processing loop of `colors.LoadFromConfig`
(colors.go lines 82–111), over the list of lines of the file; `none`
models a panic escaping the loop. -/
def LoadFromConfig (lines : List (List Char)) (σ : Scheme) : Option Scheme :=
  match lines with
  | [] => some σ
  | l :: rest =>
    match loadConfigLine σ l with
    | none => none
    | some σ' => LoadFromConfig rest σ'

/-- The empty color scheme (colors.go line 48 initializes `scheme` to an
empty map). -/
def emptyScheme : Scheme := fun _ => none

end Colors

namespace Apixu

/-- Modelled from the spec: the canonical Condition enum of the weather
domain model (spec §3), the repository's `weather.Condition`; the weather
package itself is not under src/, only the apixu tests that use it. -/
inductive Condition where
  | Clear
  | PartlyCloudy
  | Cloudy
  | Overcast
  | Mist
  | Fog
  | Rain
  | Drizzle
  | Sleet
  | Snow
  | Hail
  | Thunderstorm
  | ConditionUnknown
deriving DecidableEq

/-- Modelled from the spec: the fixed provider-code → canonical-condition
table of the Condition Table component (spec §4.3); `apixu.go` is not
under src/, so the entries are the ones its test `TestConditions`
(apixu_test.go lines 71–132) exercises exhaustively. -/
def apixuConditionTable : List (String × Condition) :=
  [("1000", .Clear),
   ("1003", .PartlyCloudy),
   ("1006", .Cloudy),
   ("1009", .Overcast),
   ("1030", .Mist),
   ("1063", .Rain),
   ("1066", .Snow),
   ("1069", .Sleet),
   ("1072", .Drizzle),
   ("1087", .Thunderstorm),
   ("1114", .Snow),
   ("1117", .Snow),
   ("1135", .Fog),
   ("1147", .Fog),
   ("1150", .Drizzle),
   ("1153", .Drizzle),
   ("1168", .Drizzle),
   ("1171", .Drizzle),
   ("1180", .Rain),
   ("1183", .Rain),
   ("1186", .Rain),
   ("1189", .Rain),
   ("1192", .Rain),
   ("1195", .Rain),
   ("1198", .Rain),
   ("1201", .Rain),
   ("1204", .Sleet),
   ("1207", .Sleet),
   ("1210", .Snow),
   ("1213", .Snow),
   ("1216", .Snow),
   ("1219", .Snow),
   ("1222", .Snow),
   ("1225", .Snow),
   ("1237", .Hail),
   ("1240", .Rain),
   ("1243", .Rain),
   ("1246", .Rain),
   ("1249", .Sleet),
   ("1252", .Sleet),
   ("1255", .Snow),
   ("1258", .Snow),
   ("1261", .Hail),
   ("1264", .Hail),
   ("1273", .Thunderstorm),
   ("1276", .Thunderstorm),
   ("1279", .Snow),
   ("1282", .Snow)]

/-- Modelled from the spec: the Condition Table translation (spec §4.3),
a total function on condition codes: exact-match lookup in the fixed
table, any absent code falling back to `ConditionUnknown`. -/
def apixuCondition (code : String) : Condition :=
  (apixuConditionTable.lookup code).getD .ConditionUnknown

/-- Go `url.QueryEscape` keeps alphanumerics and `-_.~` unchanged. -/
def isUnreservedChar (c : Char) : Bool :=
  ('A' ≤ c && c ≤ 'Z') || ('a' ≤ c && c ≤ 'z') || ('0' ≤ c && c ≤ '9') ||
    c = '-' || c = '_' || c = '.' || c = '~'

/-- Uppercase hexadecimal digit character for a value below 16. -/
def hexDigitChar (n : Nat) : Char :=
  if n < 10 then Char.ofNat (48 + n) else Char.ofNat (55 + n)

/-- Query-escape a single character: unreserved characters pass through,
space becomes `+`, anything else becomes `%XX` with uppercase hex (the
inputs here are ASCII, one byte per character). -/
def escapeChar (c : Char) : List Char :=
  if isUnreservedChar c then [c]
  else if c = ' ' then ['+']
  else ['%', hexDigitChar (c.toNat / 16), hexDigitChar (c.toNat % 16)]

/-- Modelled from the spec: standard URL query-encoding (spec §4.1), as
Go's `url.Values.Encode` performs it. -/
def queryEscape (s : String) : String :=
  String.mk (s.toList.map escapeChar).flatten

/-- The fixed base endpoint of the provider (apixu_test.go line 148). -/
def apixuURL : String := "http://api.apixu.com/v1/current.json"

/-- Modelled from the spec: the Query Builder (spec §4.1), producing the
complete request URL with exactly the two query parameters `key` and `q`
in that order, both percent-encoded; `apixu.go` is not under src/. -/
def buildURL (key q : String) : String :=
  apixuURL ++ "?key=" ++ queryEscape key ++ "&q=" ++ queryEscape q

/-- Modelled from the spec: the provider configuration created by the
constructor from the API key (spec §3, Provider); `apixu.go` is not
under src/. -/
structure Config where
  apiKey : String
deriving DecidableEq

/-- Modelled from the spec: the Provider value, an immutable request URL
(the test reads it back with `string(tc.actual.(Provider))`,
apixu_test.go line 149). -/
abbrev Provider : Type := String

/-- Modelled from the spec: the constructor taking the API key
(`New` in apixu_test.go lines 140–146). -/
def New (key : String) : Config := ⟨key⟩

/-- Modelled from the spec: the builder-style location-attaching call
(`Query` in apixu_test.go lines 140–146); Go passes the receiver by
value, so the embedding returns both the new Provider and the receiver
as the call leaves it, making the frame property explicit. -/
def Config.Query (c : Config) (loc : String) : Provider × Config :=
  (buildURL c.apiKey loc, c)

/-- Modelled from the spec: the error taxonomy of spec §7. -/
inductive ErrorKind where
  | BadRequest
  | AuthenticationFailed
  | QuotaExceeded
  | UpstreamError
  | MalformedResponse
  | TransportError
deriving DecidableEq

/-- Modelled from the spec: the outcome of the Error Classifier
(spec §4.2): `Success` or one of the four classifier error kinds. -/
inductive ApiStatus where
  | Success
  | BadRequest
  | AuthenticationFailed
  | QuotaExceeded
  | UpstreamError
deriving DecidableEq

/-- Modelled from the spec: the embedded error envelope
`{"error": {"code": ..., "message": ...}}` (spec §6). -/
structure EmbeddedError where
  code : Int
  message : String
deriving DecidableEq

/-- Modelled from the spec: the Error Classifier (spec §4.2): status 400
is `BadRequest`, 401 `AuthenticationFailed`, 403 `QuotaExceeded`, any
other non-2xx `UpstreamError`; a 2xx response with an embedded error
object is `UpstreamError`, and a 2xx response without one is
`Success`. -/
def classify (status : Nat) (embedded : Option EmbeddedError) : ApiStatus :=
  if status = 400 then .BadRequest
  else if status = 401 then .AuthenticationFailed
  else if status = 403 then .QuotaExceeded
  else if 200 ≤ status ∧ status < 300 then
    match embedded with
    | some _ => .UpstreamError
    | none => .Success
  else .UpstreamError

/-- Modelled from the spec: the `location` object of the inbound JSON
schema (spec §6); fields a JSON document may omit are `Option`s. -/
structure ApixuLocation where
  name : Option String
  region : Option String
  country : Option String
deriving DecidableEq

/-- Modelled from the spec: the `current.condition` object of the
inbound JSON schema (spec §6). -/
structure ApixuConditionField where
  text : Option String
  code : Option String
deriving DecidableEq

/-- Modelled from the spec: the `current` object of the inbound JSON
schema (spec §6); numeric JSON values are modelled as `ℤ` and `ℚ`. -/
structure ApixuCurrent where
  condition : ApixuConditionField
  humidity : Option Int
  cloud : Option Int
  pressure_mb : Option Rat
  temp_f : Option Rat
  wind_mph : Option Rat
  wind_degree : Option Int
  last_updated_epoch : Option Int
deriving DecidableEq

/-- Modelled from the spec: the parsed JSON tree of a provider response
(RawResponse, spec §3 and §6), including the optional embedded error
envelope. -/
structure ApixuResponse where
  location : ApixuLocation
  current : ApixuCurrent
  error : Option EmbeddedError
deriving DecidableEq

/-- One millibar in the canonical pressure unit (pascal), as in the
`unit` package used by the tests: `unit.Millibar` = 100 Pa. -/
def millibar : ℚ := 100

/-- One mile per hour in the canonical speed unit (metres per second),
as in the `unit` package used by the tests. -/
def milesPerHour : ℚ := 44704 / 100000

/-- Degrees Fahrenheit converted to the canonical temperature unit
(kelvin), as `unit.FromFahrenheit` does in the tests. -/
def fromFahrenheit (f : ℚ) : ℚ :=
  (f - 32) * 5 / 9 + 27315 / 100

/-- Modelled from the spec: wind in the canonical Weather record
(spec §3): speed in the canonical unit, direction in degrees. -/
structure Wind where
  Speed : ℚ
  Direction : Int
deriving DecidableEq

/-- Modelled from the spec: the canonical Weather record (spec §3);
`Updated` is the absolute timestamp as Unix epoch seconds. -/
structure Weather where
  Location : String
  Condition : Condition
  Description : String
  Humidity : ℚ
  Pressure : ℚ
  Temperature : ℚ
  Wind : Wind
  CloudCover : ℚ
  Updated : Int
  Attribution : String
deriving DecidableEq

/-- Modelled from the spec: the Response Translator (spec §4.4): every
required numeric field must be present or the result is
`MalformedResponse` (never a silently-zeroed value); optional text
fields default to the empty string; units are converted to canonical
ones and the condition code goes through the Condition Table. -/
def translate (r : ApixuResponse) : Except ErrorKind Weather :=
  match r.current.condition.code, r.current.temp_f, r.current.pressure_mb,
      r.current.humidity, r.current.cloud, r.current.wind_mph,
      r.current.wind_degree, r.current.last_updated_epoch with
  | some code, some tf, some pmb, some hum, some cl, some wm, some wd, some ep =>
    .ok
      { Location := r.location.name.getD "" ++ ", " ++ r.location.region.getD ""
          ++ ", " ++ r.location.country.getD ""
        Condition := apixuCondition code
        Description := r.current.condition.text.getD ""
        Humidity := (hum : ℚ) / 100
        Pressure := pmb * millibar
        Temperature := fromFahrenheit tf
        Wind := ⟨wm * milesPerHour, wd⟩
        CloudCover := (cl : ℚ) / 100
        Updated := ep
        Attribution := "Apixu" }
  | _, _, _, _, _, _, _, _ => .error .MalformedResponse

/-- Modelled from the spec: an HTTP fetch result as the core sees it
(spec §2): a status code and the parsed JSON body. -/
structure HttpResult where
  status : Nat
  body : ApixuResponse
deriving DecidableEq

/-- Modelled from the spec: the Provider orchestration `GetWeather`
(spec §2 and §6): classify the HTTP outcome, and on `Success` run the
Response Translator. -/
def GetWeather (r : HttpResult) : Except ErrorKind Weather :=
  match classify r.status r.body.error with
  | .Success => translate r.body
  | .BadRequest => .error .BadRequest
  | .AuthenticationFailed => .error .AuthenticationFailed
  | .QuotaExceeded => .error .QuotaExceeded
  | .UpstreamError => .error .UpstreamError

/-- The Greenville, South Carolina fixture payload of `TestGood`
(apixu_test.go lines 39–58). -/
def greenville : ApixuResponse :=
  { location := ⟨some "Greenville", some "South Carolina", some "USA"⟩
    current :=
      { condition := ⟨some "Light rain", some "1183"⟩
        humidity := some 96
        cloud := some 100
        pressure_mb := some 1016
        temp_f := some 48
        wind_mph := some (119 / 10)
        wind_degree := some 40
        last_updated_epoch := some 1544845514 }
    error := none }

end Apixu

deriving instance DecidableEq for Except

namespace Colors

/-- Defining equation of `splitAtLastEqual` on a nonempty string. -/
theorem splitAtLastEqual_cons (c : Char) (rest : List Char) :
    splitAtLastEqual (c :: rest) =
      match splitAtLastEqual rest with
      | (pre, post, true) => (c :: pre, post, true)
      | (_, _, false) =>
        if c = '=' then ([], rest, true) else ([], [], false) := rfl

/-- A string without an equals sign is reported as not splittable. -/
theorem splitAtLastEqual_eq_none (s : List Char) (h : '=' ∉ s) :
    splitAtLastEqual s = ([], [], false) := by
  induction s with
  | nil => rfl
  | cons c rest ih =>
    simp only [List.mem_cons, not_or] at h
    rw [splitAtLastEqual_cons, ih h.2]
    simp [Ne.symm h.1]

/-- The ok flag of `splitAtLastEqual` is true exactly when the string
contains an equals sign. -/
theorem splitAtLastEqual_ok_iff (s : List Char) :
    (splitAtLastEqual s).2.2 = true ↔ '=' ∈ s := by
  induction s with
  | nil => simp [splitAtLastEqual]
  | cons c rest ih =>
    rw [splitAtLastEqual_cons]
    rcases h : splitAtLastEqual rest with ⟨pre, rest2⟩
    rcases rest2 with ⟨post, ok⟩
    rw [h] at ih
    cases ok with
    | false =>
      have hm : '=' ∉ rest := fun hmem => by simpa using ih.mpr hmem
      by_cases hc : c = '='
      · simp [hc]
      · simp [hc, Ne.symm hc, hm]
    | true =>
      have hm : '=' ∈ rest := ih.mp rfl
      simp [hm]

/-- Splitting `pre ++ "=" ++ post` with no equals sign in `post` yields
exactly `(pre, post)`. -/
theorem splitAtLastEqual_append (pre post : List Char) (h : '=' ∉ post) :
    splitAtLastEqual (pre ++ '=' :: post) = (pre, post, true) := by
  induction pre with
  | nil =>
    rw [List.nil_append, splitAtLastEqual_cons,
      splitAtLastEqual_eq_none post h]
    simp
  | cons c pre ih =>
    rw [List.cons_append, splitAtLastEqual_cons, ih]

/-- One `LoadFromArgs` step either leaves the scheme unchanged or
inserts, at the name the argument splits to, the color parsed from the
value that very argument supplies. -/
theorem loadArgStep_cases (σ : Scheme) (a : List Char) :
    loadArgStep σ a = σ ∨
      ∃ name v c, splitAtLastEqual a = (name, v, true) ∧ Hex v = some c ∧
        loadArgStep σ a = updateScheme σ name c := by
  rcases h : splitAtLastEqual a with ⟨name, rest2⟩
  rcases rest2 with ⟨value, ok⟩
  cases ok with
  | false => left; simp [loadArgStep, h]
  | true =>
    rcases hv : Hex value with _ | c
    · left; simp [loadArgStep, h, hv]
    · right; exact ⟨name, value, c, rfl, hv, by simp [loadArgStep, h, hv]⟩

/-- `LoadFromArgs`, observed at a point of the scheme: either the entry
is unchanged, or some argument of the list splits to exactly that name
and the entry is the color parsed from the value that argument
supplies. -/
theorem loadFromArgs_supplied (args : List (List Char)) :
    ∀ σ n, LoadFromArgs args σ n = σ n ∨
      ∃ a ∈ args, ∃ v c, splitAtLastEqual a = (n, v, true) ∧
        Hex v = some c ∧ LoadFromArgs args σ n = some c := by
  induction args with
  | nil => intro σ n; left; rfl
  | cons a rest ih =>
    intro σ n
    have hrw : LoadFromArgs (a :: rest) σ = LoadFromArgs rest (loadArgStep σ a) := rfl
    rcases ih (loadArgStep σ a) n with h | ⟨a', ha', v, c, hs, hv, hc⟩
    · rcases loadArgStep_cases σ a with h2 | ⟨name, v, c, hs, hv, h2⟩
      · left; rw [hrw, h, h2]
      · by_cases hn : n = name
        · subst hn
          right
          exact ⟨a, List.mem_cons_self _ _, v, c, hs, hv,
            by rw [hrw, h, h2]; simp [updateScheme]⟩
        · left; rw [hrw, h, h2]; simp [updateScheme, hn]
    · right
      exact ⟨a', List.mem_cons_of_mem _ ha', v, c, hs, hv, by rw [hrw]; exact hc⟩

/-- `LoadFromMap`, observed at a point of the scheme: either the entry
is unchanged, or the map contains a pair with exactly that name and the
entry is the color parsed from the value supplied in that pair. -/
theorem loadFromMap_supplied (entries : List (List Char × List Char)) :
    ∀ σ n, LoadFromMap entries σ n = σ n ∨
      ∃ v c, (n, v) ∈ entries ∧ Hex v = some c ∧
        LoadFromMap entries σ n = some c := by
  induction entries with
  | nil => intro σ n; left; rfl
  | cons e rest ih =>
    intro σ n
    rcases e with ⟨name, value⟩
    rcases hv : Hex value with _ | c
    · have hrw : LoadFromMap ((name, value) :: rest) σ = LoadFromMap rest σ := by
        simp [LoadFromMap, hv]
      rw [hrw]
      rcases ih σ n with h | ⟨v', c', hmem, hv', hc'⟩
      · left; exact h
      · right; exact ⟨v', c', List.mem_cons_of_mem _ hmem, hv', hc'⟩
    · have hrw : LoadFromMap ((name, value) :: rest) σ =
          LoadFromMap rest (updateScheme σ name c) := by
        simp [LoadFromMap, hv]
      rw [hrw]
      rcases ih (updateScheme σ name c) n with h | ⟨v', c', hmem, hv', hc'⟩
      · by_cases hn : n = name
        · subst hn
          right
          exact ⟨value, c, List.mem_cons_self _ _, hv,
            by rw [h]; simp [updateScheme]⟩
        · left; rw [h]; simp [updateScheme, hn]
      · right; exact ⟨v', c', List.mem_cons_of_mem _ hmem, hv', hc'⟩

/-- One non-panicking `LoadFromConfig` line either leaves the scheme
unchanged or inserts, at the name the line supplies, the color parsed
from the value the same line supplies. -/
theorem loadConfigLine_supplied (σ : Scheme) (l : List Char) (σ₂ : Scheme)
    (h : loadConfigLine σ l = some σ₂) :
    σ₂ = σ ∨ ∃ name v c, configPair l = some (name, v) ∧ Hex v = some c ∧
      σ₂ = updateScheme σ name c := by
  simp only [loadConfigLine] at h
  split at h
  · rename_i hp
    split at h
    · rename_i name value hs
      split at h
      · exact absurd h (by simp)
      · rename_i v hu
        split at h
        · rename_i c hv
          right
          refine ⟨trimSpace (name.drop 6), v, c, ?_, hv,
            (Option.some.inj h).symm⟩
          simp only [configPair]
          rw [if_pos hp]
          simp only [hs, hu]
        · left; exact (Option.some.inj h).symm
    · left; exact (Option.some.inj h).symm
  · left; exact (Option.some.inj h).symm

/-- `LoadFromConfig`, observed at a point of the scheme, when it does
not panic: either the entry is unchanged, or some line of the file
supplies exactly that name and the entry is the color parsed from the
value that line supplies. -/
theorem loadFromConfig_supplied (lines : List (List Char)) :
    ∀ σ σ' n, LoadFromConfig lines σ = some σ' →
      σ' n = σ n ∨ ∃ l ∈ lines, ∃ v c, configPair l = some (n, v) ∧
        Hex v = some c ∧ σ' n = some c := by
  induction lines with
  | nil =>
    intro σ σ' n h
    left
    rw [← Option.some.inj h]
  | cons l rest ih =>
    intro σ σ' n h
    rw [LoadFromConfig] at h
    rcases hl : loadConfigLine σ l with _ | σ₂
    · rw [hl] at h; exact absurd h (by simp)
    · rw [hl] at h
      rcases ih σ₂ σ' n h with h2 | ⟨l', hl', v, c, hcp, hv, hc⟩
      · rcases loadConfigLine_supplied σ l σ₂ hl with rfl | ⟨name, v, c, hcp, hv, rfl⟩
        · left; exact h2
        · by_cases hn : n = name
          · subst hn
            right
            exact ⟨l, List.mem_cons_self _ _, v, c, hcp, hv,
              by rw [h2]; simp [updateScheme]⟩
          · left; rw [h2]; simp [updateScheme, hn]
      · right; exact ⟨l', List.mem_cons_of_mem _ hl', v, c, hcp, hv, hc⟩

/-- C8: `colors.LoadFromConfig` is not total over readable text files:
on a file whose single line is `color_good=`, the portion after the
last equals sign is empty after trimming, the unquoting step evaluates
`value[0]` on the empty string, and the loader panics (modelled as
`none`) instead of skipping the line or returning an error. -/
theorem load_from_config_panics :
    LoadFromConfig ["color_good=".toList] emptyScheme = none ∧
    splitAtLastEqual (trimSpace "color_good=".toList) =
      ("color_good".toList, [], true) ∧
    unquote [] = none :=
  ⟨rfl, by decide, rfl⟩

/-- C9: `colors.splitAtLastEqual` splits at the last equals sign: the
ok flag is true exactly when the string contains one, the prefix before
the last equals sign and the suffix after it are returned, and
consequently `LoadFromArgs` parses `a=b=#ff0000` as name `a=b` with
value `#ff0000` (and no entry is created for name `a`). -/
theorem split_at_last_equal_spec :
    (∀ s : List Char, (splitAtLastEqual s).2.2 = true ↔ '=' ∈ s) ∧
    (∀ pre post : List Char, '=' ∉ post →
      splitAtLastEqual (pre ++ '=' :: post) = (pre, post, true)) ∧
    splitAtLastEqual "a=b=#ff0000".toList =
      ("a=b".toList, "#ff0000".toList, true) ∧
    LoadFromArgs ["a=b=#ff0000".toList] emptyScheme "a=b".toList =
      some ⟨255, 0, 0⟩ ∧
    LoadFromArgs ["a=b=#ff0000".toList] emptyScheme "a".toList = none :=
  ⟨splitAtLastEqual_ok_iff, splitAtLastEqual_append, by decide, by decide,
    by decide⟩

/-- Closed witness for C9 at a concrete split input. -/
theorem split_at_last_equal_spec_witness :
    splitAtLastEqual ("ab".toList ++ '=' :: "cd".toList) =
      ("ab".toList, "cd".toList, true) :=
  split_at_last_equal_spec.2.1 "ab".toList "cd".toList (by decide)

/-- C10: every scheme-modifying operation (`LoadFromArgs`,
`LoadFromMap`, `LoadFromConfig`) inserts an entry only when `Hex`
parsing of the value supplied for that name succeeds: at every name,
the scheme entry is either left unchanged, or equals the color parsed
from a value the input itself supplies for exactly that name — so a
name whose supplied value fails to parse keeps its existing entry, and
`Scheme(name)` never returns a value originating from a failed
parse. -/
theorem scheme_values_from_hex :
    (∀ args σ n, LoadFromArgs args σ n = σ n ∨
      ∃ a ∈ args, ∃ v c, splitAtLastEqual a = (n, v, true) ∧
        Hex v = some c ∧ LoadFromArgs args σ n = some c) ∧
    (∀ entries σ n, LoadFromMap entries σ n = σ n ∨
      ∃ v c, (n, v) ∈ entries ∧ Hex v = some c ∧
        LoadFromMap entries σ n = some c) ∧
    (∀ lines σ σ' n, LoadFromConfig lines σ = some σ' →
      σ' n = σ n ∨ ∃ l ∈ lines, ∃ v c, configPair l = some (n, v) ∧
        Hex v = some c ∧ σ' n = some c) :=
  ⟨fun args => loadFromArgs_supplied args,
   fun entries => loadFromMap_supplied entries,
   fun lines => loadFromConfig_supplied lines⟩

/-- Closed witness for C10 on a concrete config load. -/
theorem scheme_values_from_hex_witness :
    updateScheme emptyScheme "good".toList ⟨255, 0, 0⟩ "good".toList =
        emptyScheme "good".toList ∨
      ∃ l ∈ ["color_good=#ff0000".toList], ∃ v c,
        configPair l = some ("good".toList, v) ∧ Hex v = some c ∧
        updateScheme emptyScheme "good".toList ⟨255, 0, 0⟩ "good".toList =
          some c :=
  scheme_values_from_hex.2.2 ["color_good=#ff0000".toList] emptyScheme
    (updateScheme emptyScheme "good".toList ⟨255, 0, 0⟩) "good".toList rfl

end Colors

namespace Apixu

/-- C1: the condition-code translation is total: every code in the
fixed table (including "1000", "1183", "1225", "1264", "1282") yields
exactly its documented canonical Condition, and any code absent from
the table — including "0" — yields `ConditionUnknown` rather than
failing. -/
theorem condition_table_total :
    apixuCondition "1000" = .Clear ∧
    apixuCondition "1183" = .Rain ∧
    apixuCondition "1225" = .Snow ∧
    apixuCondition "1264" = .Hail ∧
    apixuCondition "1282" = .Snow ∧
    (∀ p ∈ apixuConditionTable, apixuCondition p.1 = p.2) ∧
    (∀ code, apixuConditionTable.lookup code = none →
      apixuCondition code = .ConditionUnknown) ∧
    apixuCondition "0" = .ConditionUnknown := by
  refine ⟨by decide, by decide, by decide, by decide, by decide, by decide,
    ?_, by decide⟩
  intro code h
  simp [apixuCondition, h]

/-- Closed witness for C1 at a table entry and at an unknown code. -/
theorem condition_table_total_witness :
    apixuCondition ("1066", Condition.Snow).1 = ("1066", Condition.Snow).2 ∧
    apixuCondition "9999" = .ConditionUnknown :=
  ⟨condition_table_total.2.2.2.2.2.1 ("1066", Condition.Snow) (by decide),
   condition_table_total.2.2.2.2.2.2.1 "9999" (by decide)⟩

/-- C2: the Query Builder produces the fixed base endpoint followed by
exactly the two query parameters `key` and `q` in that order, with the
location percent-encoded (`:` as `%3A`, `,` as `%2C`); on the seven
LocationSpec shapes with key "foo" it produces exactly the documented
URLs and no other parameters. -/
theorem query_builder_urls :
    (∀ key q, buildURL key q =
      apixuURL ++ "?key=" ++ queryEscape key ++ "&q=" ++ queryEscape q) ∧
    queryEscape ":" = "%3A" ∧
    queryEscape "," = "%2C" ∧
    buildURL "foo" "29617" =
      "http://api.apixu.com/v1/current.json?key=foo&q=29617" ∧
    buildURL "foo" "Paris" =
      "http://api.apixu.com/v1/current.json?key=foo&q=Paris" ∧
    buildURL "foo" "145.77,-16.92" =
      "http://api.apixu.com/v1/current.json?key=foo&q=145.77%2C-16.92" ∧
    buildURL "foo" "metar:EGLL" =
      "http://api.apixu.com/v1/current.json?key=foo&q=metar%3AEGLL" ∧
    buildURL "foo" "iata:DXB" =
      "http://api.apixu.com/v1/current.json?key=foo&q=iata%3ADXB" ∧
    buildURL "foo" "100.0.0.1" =
      "http://api.apixu.com/v1/current.json?key=foo&q=100.0.0.1" ∧
    buildURL "foo" "auto:ip" =
      "http://api.apixu.com/v1/current.json?key=foo&q=auto%3Aip" :=
  ⟨fun _ _ => rfl, by decide, by decide, by decide, by decide, by decide,
    by decide, by decide, by decide, by decide⟩

/-- C3: on the Greenville fixture payload, `GetWeather` succeeds and
returns the single Weather record with all documented canonical
fields, unit conversions applied, and the constant Attribution. -/
theorem getweather_greenville :
    GetWeather ⟨200, greenville⟩ = .ok
      { Location := "Greenville, South Carolina, USA"
        Condition := .Rain
        Description := "Light rain"
        Humidity := 96 / 100
        Pressure := 1016 * millibar
        Temperature := fromFahrenheit 48
        Wind := ⟨(119 / 10) * milesPerHour, 40⟩
        CloudCover := 1
        Updated := 1544845514
        Attribution := "Apixu" } := by
  have h : GetWeather ⟨200, greenville⟩ = .ok
      { Location := "Greenville, South Carolina, USA"
        Condition := apixuCondition "1183"
        Description := "Light rain"
        Humidity := ((96 : Int) : ℚ) / 100
        Pressure := (1016 : ℚ) * millibar
        Temperature := fromFahrenheit 48
        Wind := ⟨(119 / 10 : ℚ) * milesPerHour, 40⟩
        CloudCover := ((100 : Int) : ℚ) / 100
        Updated := 1544845514
        Attribution := "Apixu" } := rfl
  rw [h]
  simp only [Except.ok.injEq, Weather.mk.injEq, Wind.mk.injEq]
  norm_num
  decide

/-- C4: error classification is total over HTTP status codes: 400 is
`BadRequest`, 401 `AuthenticationFailed`, 403 `QuotaExceeded`, any
other non-2xx status (or an embedded error object in an otherwise-2xx
body) is `UpstreamError`, and 2xx with no embedded error is `Success`;
unrecognized non-2xx codes never crash and never silently succeed. -/
theorem error_classifier_total :
    (∀ e, classify 400 e = .BadRequest) ∧
    (∀ e, classify 401 e = .AuthenticationFailed) ∧
    (∀ e, classify 403 e = .QuotaExceeded) ∧
    (∀ s e, ¬ (200 ≤ s ∧ s < 300) → s ≠ 400 → s ≠ 401 → s ≠ 403 →
      classify s e = .UpstreamError) ∧
    (∀ s err, 200 ≤ s → s < 300 → classify s (some err) = .UpstreamError) ∧
    (∀ s, 200 ≤ s → s < 300 → classify s none = .Success) := by
  refine ⟨fun e => rfl, fun e => rfl, fun e => rfl, ?_, ?_, ?_⟩
  · intro s e h h4 h1 h3
    simp only [classify, if_neg h4, if_neg h1, if_neg h3, if_neg h]
  · intro s err h2 h3
    simp only [classify]
    rw [if_neg (by omega : ¬ s = 400), if_neg (by omega : ¬ s = 401),
      if_neg (by omega : ¬ s = 403), if_pos (And.intro h2 h3)]
  · intro s h2 h3
    simp only [classify]
    rw [if_neg (by omega : ¬ s = 400), if_neg (by omega : ¬ s = 401),
      if_neg (by omega : ¬ s = 403), if_pos (And.intro h2 h3)]

/-- Closed witness for C4 at an unrecognized status, an embedded error
in a 2xx body, and a clean 2xx. -/
theorem error_classifier_total_witness :
    classify 500 none = .UpstreamError ∧
    classify 200 (some ⟨1002, "key not provided"⟩) = .UpstreamError ∧
    classify 200 none = .Success :=
  ⟨error_classifier_total.2.2.2.1 500 none (by omega) (by decide) (by decide)
      (by decide),
   error_classifier_total.2.2.2.2.1 200 ⟨1002, "key not provided"⟩
      (by decide) (by decide),
   error_classifier_total.2.2.2.2.2 200 (by decide) (by decide)⟩

/-- C5: a payload whose required field `current.condition.code` is
absent — or whose required numeric field `current.temp_f` or
`current.pressure_mb` is absent — makes the Response Translator fail
with `MalformedResponse`; it never returns a Weather record with a
silently-zeroed required field. -/
theorem malformed_required_fields (r : ApixuResponse) :
    (r.current.condition.code = none →
      translate r = .error .MalformedResponse) ∧
    (r.current.temp_f = none → translate r = .error .MalformedResponse) ∧
    (r.current.pressure_mb = none →
      translate r = .error .MalformedResponse) := by
  refine ⟨?_, ?_, ?_⟩ <;> intro h <;> unfold translate <;> split
  case _ => simp_all
  case _ => rfl
  case _ => simp_all
  case _ => rfl
  case _ => simp_all
  case _ => rfl

/-- The Greenville payload with `current.condition.code` removed. -/
def missingCode : ApixuResponse :=
  { greenville with
    current := { greenville.current with
      condition := ⟨some "Light rain", none⟩ } }

/-- Closed witness for C5 on a concrete payload missing the condition
code. -/
theorem malformed_required_fields_witness :
    translate missingCode = .error .MalformedResponse :=
  (malformed_required_fields missingCode).1 rfl

/-- The Greenville payload with `current.humidity` set to the
out-of-schema value 200. -/
def overHumidity : ApixuResponse :=
  { greenville with
    current := { greenville.current with humidity := some 200 } }

/-- The Weather record the translator produces for `overHumidity`. -/
def overHumidityWeather : Weather :=
  { Location := "Greenville, South Carolina, USA"
    Condition := apixuCondition "1183"
    Description := "Light rain"
    Humidity := ((200 : Int) : ℚ) / 100
    Pressure := (1016 : ℚ) * millibar
    Temperature := fromFahrenheit 48
    Wind := ⟨(119 / 10 : ℚ) * milesPerHour, 40⟩
    CloudCover := ((100 : Int) : ℚ) / 100
    Updated := 1544845514
    Attribution := "Apixu" }

/-- C6 counterexample: the translation divides the provider's humidity
integer by 100 without clamping, so a successful `GetWeather` on a
payload carrying humidity 200 returns Humidity 2, which lies outside
[0.0, 1.0]; the claim as stated over all integer provider values is
false. -/
theorem humidity_unbounded_counterexample :
    GetWeather ⟨200, overHumidity⟩ = .ok overHumidityWeather ∧
    overHumidityWeather.Humidity = 2 ∧
    ¬ overHumidityWeather.Humidity ≤ 1 := by
  refine ⟨rfl, ?_, ?_⟩ <;> norm_num [overHumidityWeather]

/-- C6 (amended): for every successful `GetWeather` call whose payload
carries humidity and cloud integers within the provider's documented
0–100 range, the returned Humidity and CloudCover are the percentages
divided by 100 and lie within [0.0, 1.0]. -/
theorem humidity_cloud_bounds (r : HttpResult) (w : Weather) (hum cl : Int)
    (hw : GetWeather r = .ok w)
    (hh : r.body.current.humidity = some hum)
    (hc : r.body.current.cloud = some cl)
    (h0 : 0 ≤ hum) (h1 : hum ≤ 100) (c0 : 0 ≤ cl) (c1 : cl ≤ 100) :
    w.Humidity = (hum : ℚ) / 100 ∧ w.CloudCover = (cl : ℚ) / 100 ∧
    0 ≤ w.Humidity ∧ w.Humidity ≤ 1 ∧
    0 ≤ w.CloudCover ∧ w.CloudCover ≤ 1 := by
  have ht : translate r.body = .ok w := by
    unfold GetWeather at hw
    cases hcl : classify r.status r.body.error <;> rw [hcl] at hw
    case Success => exact hw
    all_goals simp at hw
  unfold translate at ht
  split at ht
  · rename_i code tf pmb hum2 cl2 wm wd ep hcode htf hpmb hhum2 hcl2 hwm hwd
      hep
    obtain rfl : hum2 = hum := Option.some.inj (hhum2.symm.trans hh)
    obtain rfl : cl2 = cl := Option.some.inj (hcl2.symm.trans hc)
    have hw2 : _ = w := Except.ok.inj ht
    subst hw2
    refine ⟨rfl, rfl, ?_, ?_, ?_, ?_⟩
    · exact div_nonneg (by exact_mod_cast h0) (by norm_num)
    · rw [div_le_one (by norm_num : (0:ℚ) < 100)]
      exact_mod_cast h1
    · exact div_nonneg (by exact_mod_cast c0) (by norm_num)
    · rw [div_le_one (by norm_num : (0:ℚ) < 100)]
      exact_mod_cast c1
  · exact absurd ht (by simp)

/-- The Weather record the translator produces for the Greenville
payload, in the exact form `translate` computes it. -/
def goodWeather : Weather :=
  { Location := "Greenville, South Carolina, USA"
    Condition := apixuCondition "1183"
    Description := "Light rain"
    Humidity := ((96 : Int) : ℚ) / 100
    Pressure := (1016 : ℚ) * millibar
    Temperature := fromFahrenheit 48
    Wind := ⟨(119 / 10 : ℚ) * milesPerHour, 40⟩
    CloudCover := ((100 : Int) : ℚ) / 100
    Updated := 1544845514
    Attribution := "Apixu" }

/-- Closed witness for the amended C6, on the Greenville payload. -/
theorem humidity_cloud_bounds_witness :
    goodWeather.Humidity = ((96 : Int) : ℚ) / 100 ∧
    goodWeather.CloudCover = ((100 : Int) : ℚ) / 100 ∧
    0 ≤ goodWeather.Humidity ∧ goodWeather.Humidity ≤ 1 ∧
    0 ≤ goodWeather.CloudCover ∧ goodWeather.CloudCover ≤ 1 :=
  humidity_cloud_bounds ⟨200, greenville⟩ goodWeather 96 100 rfl rfl rfl
    (by norm_num) (by norm_num) (by norm_num) (by norm_num)

/-- C7: Provider values are immutable: the location-attaching call
returns a new Provider and leaves the receiver itself unchanged, a
second query from the same configuration is unaffected by the first,
and two Providers built from the same key with different LocationSpecs
are distinct values. -/
theorem provider_immutable (key l1 l2 : String) :
    ((New key).Query l1).2 = New key ∧
    ((New key).Query l2).2 = New key ∧
    (((New key).Query l1).2.Query l2).1 = ((New key).Query l2).1 ∧
    ((New key).Query l1).1 = buildURL key l1 ∧
    ((New "foo").Query "29617").1 ≠ ((New "foo").Query "Paris").1 :=
  ⟨rfl, rfl, rfl, rfl, by decide⟩

end Apixu
